import Mathlib

/-!
Shallow embedding of `src/ms_migrate_cli/ms_device.py` (a Meraki switch
migration CLI) and proofs about its port-topology reconciler, precondition
gate, serialization and orchestration.

Conventions of the embedding:
* Python `None`-able dataclass fields become `Option` fields.
* Python floats (`lat`, `lng`) are carried as `Rat`: no arithmetic is ever
  performed on them, they only pass through payloads, and every IEEE double
  is exactly representable as a rational.
* A heterogeneous API value is a `FieldVal`.
* Code that would raise an unhandled Python exception is modelled as an
  explicit error constructor (`Except` / a dedicated result constructor).
-/

/-- Heterogeneous value as it appears in a Meraki API mapping / payload. -/
inductive FieldVal where
  | str : String → FieldVal
  | int : Int → FieldVal
  | bool : Bool → FieldVal
  | float : Rat → FieldVal
  | strList : List String → FieldVal
  | dict : List (String × String) → FieldVal
deriving DecidableEq, Repr

/-- Embedding of the `SwitchDevice` dataclass (all fields default `None`). -/
structure SwitchDevice where
  name : Option String := none
  model : Option String := none
  mac : Option String := none
  tags : Option (List String) := none
  lat : Option Rat := none
  lng : Option Rat := none
  address : Option String := none
  notes : Option String := none
  floorPlanId : Option String := none
deriving DecidableEq, Repr, Inhabited

/-- Embedding of the `SwitchPort` dataclass (all fields default `None`). -/
structure SwitchPort where
  portId : Option String := none
  name : Option String := none
  tags : Option (List String) := none
  enabled : Option Bool := none
  poeEnabled : Option Bool := none
  type : Option String := none
  vlan : Option Int := none
  voiceVlan : Option Int := none
  allowedVlans : Option String := none
  isolationEnabled : Option Bool := none
  rstpEnabled : Option Bool := none
  stpGuard : Option String := none
  linkNegotiation : Option String := none
  portScheduleId : Option String := none
  udld : Option String := none
  accessPolicyType : Option String := none
  accessPolicyNumber : Option Int := none
  macAllowList : Option (List String) := none
  stickyMacAllowList : Option (List String) := none
  stickyMacAllowListLimit : Option Int := none
  stormControlEnabled : Option Bool := none
  adaptivePolicyGroupId : Option String := none
  peerSgtCapable : Option Bool := none
  flexibleStackingEnabled : Option Bool := none
  daiTrusted : Option Bool := none
  profile : Option (List (String × String)) := none
deriving DecidableEq, Repr, Inhabited

/-- The fixed enumeration of base (RJ45) chassis sizes:
`rj45_ports: list[int] = [8, 24, 48]` in `update_switch_ports`. -/
def rj45Ports : List Nat := [8, 24, 48]

/-- The key used by the `min(..., key=...)` call:
`abs(x - n) if x <= n else x`.  For `x ≤ n` the absolute difference is
`n - x` in `Nat`. -/
def classKey (n x : Nat) : Nat := if x ≤ n then n - x else x

/-- Python `min(xs, key)` on a non-empty list: keeps the first element whose
key is minimal (a later element replaces the current best only when its key
is strictly smaller). -/
def pyMinBy (key : Nat → Nat) : List Nat → Nat
  | [] => 0
  | x :: xs => xs.foldl (fun b a => if key a < key b then a else b) x

/-- `min(rj45_ports, key=lambda x: abs(x - n) if x <= n else x)`:
selects the RJ45 class at or nearest below `n`, else the smallest class. -/
def nearestClass (n : Nat) : Nat := pyMinBy (classKey n) rj45Ports

/-- Closed-form characterization of the class selection. -/
theorem nearestClass_char (n : Nat) :
    nearestClass n = if 48 ≤ n then 48 else if 24 ≤ n then 24 else 8 := by
  simp only [nearestClass, pyMinBy, rj45Ports, classKey, List.foldl_cons,
    List.foldl_nil]
  split_ifs <;> omega

/-- Value of a decimal digit character, `none` for a non-digit. -/
def digitVal (c : Char) : Option Nat :=
  if c.isDigit then some (c.toNat - 48) else none

/-- Decimal value of a non-empty all-digit character list, `none` otherwise. -/
def digitsToNat (cs : List Char) : Option Nat :=
  if cs.isEmpty then none
  else
    cs.foldl
      (fun acc c =>
        match acc, digitVal c with
        | some a, some d => some (a * 10 + d)
        | _, _ => none)
      (some 0)

/-- Models Python `int(s)` on the canonical decimal numeral strings that occur
as `portId` values: an optional sign followed by digits.  (Python `int` also
strips whitespace and underscores, which never occur in `portId` strings.)
A non-numeral yields `none`, the embedding of Python's `ValueError`. -/
def pyInt (s : String) : Option Int :=
  match s.toList with
  | [] => none
  | '-' :: cs => (digitsToNat cs).map (fun n => -(n : Int))
  | '+' :: cs => (digitsToNat cs).map (fun n => (n : Int))
  | cs => (digitsToNat cs).map (fun n => (n : Int))

/-- Renumbers the SFP uplink ports: `port.portId = str(int(port.portId) + delta)`
for each port in order.  A missing or non-numeric `portId` is Python's
`TypeError`/`ValueError`, embedded as `none`. -/
def renumberUplinks (delta : Int) : List SwitchPort → Option (List SwitchPort)
  | [] => some []
  | p :: ps =>
    match p.portId.bind pyInt with
    | none => none
    | some k =>
      (renumberUplinks delta ps).map
        (fun rest => { p with portId := some (toString (k + delta)) } :: rest)

/-- The 24→48 base-port extension loop:
`for n in range(24, 48): append(SwitchPort(**asdict(base[0]))); base[n].portId = str(n + 1)`.
Each synthesized port is a by-value copy of the first base port with only
`portId` overwritten. -/
def extendTo48 (base : List SwitchPort) : List SwitchPort :=
  base ++
    (List.range' 24 24).map
      (fun n => { base.headD default with portId := some (toString (n + 1)) })

/-- Errors of `update_switch_ports` raised before any port mutation. -/
inductive PortsError where
  | emptySource : PortsError
  | incompatible : Nat → Nat → PortsError
  | badPortId : PortsError
deriving DecidableEq, Repr

/-- Pure core of `update_switch_ports`: given the source port list and the
target's total port count, produce the adjusted port list to apply to the
target, or the error raised before any target mutation. -/
def updateSwitchPorts (sourcePorts : List SwitchPort) (targetPortCount : Nat) :
    Except PortsError (List SwitchPort) :=
  if sourcePorts.length = 0 then .error .emptySource
  else
    let sourceRj45Count := nearestClass sourcePorts.length
    let targetRj45Count := nearestClass targetPortCount
    let sourceRj45Ports := sourcePorts.take sourceRj45Count
    let sourceSfpPorts := sourcePorts.drop sourceRj45Count
    if sourceRj45Count ≠ targetRj45Count then
      if sourceRj45Count = 24 ∧ targetRj45Count = 48 then
        match renumberUplinks 24 sourceSfpPorts with
        | none => .error .badPortId
        | some sfp => .ok (extendTo48 sourceRj45Ports ++ sfp)
      else if sourceRj45Count = 48 ∧ targetRj45Count = 24 then
        match renumberUplinks (-24) sourceSfpPorts with
        | none => .error .badPortId
        | some sfp => .ok (sourceRj45Ports.take 24 ++ sfp)
      else .error (.incompatible sourceRj45Count targetRj45Count)
    else .ok (sourceRj45Ports ++ sourceSfpPorts)

/-- `dataclasses.asdict(device)` before filtering: every field, in declaration
order, paired with its (possibly unset) value. -/
def deviceFields (d : SwitchDevice) : List (String × Option FieldVal) :=
  [("name", d.name.map FieldVal.str),
   ("model", d.model.map FieldVal.str),
   ("mac", d.mac.map FieldVal.str),
   ("tags", d.tags.map FieldVal.strList),
   ("lat", d.lat.map FieldVal.float),
   ("lng", d.lng.map FieldVal.float),
   ("address", d.address.map FieldVal.str),
   ("notes", d.notes.map FieldVal.str),
   ("floorPlanId", d.floorPlanId.map FieldVal.str)]

/-- First half of the `SwitchPort` field list, in declaration order. -/
def portFieldsA (p : SwitchPort) : List (String × Option FieldVal) :=
  [("portId", p.portId.map FieldVal.str),
   ("name", p.name.map FieldVal.str),
   ("tags", p.tags.map FieldVal.strList),
   ("enabled", p.enabled.map FieldVal.bool),
   ("poeEnabled", p.poeEnabled.map FieldVal.bool),
   ("type", p.type.map FieldVal.str),
   ("vlan", p.vlan.map FieldVal.int),
   ("voiceVlan", p.voiceVlan.map FieldVal.int),
   ("allowedVlans", p.allowedVlans.map FieldVal.str),
   ("isolationEnabled", p.isolationEnabled.map FieldVal.bool),
   ("rstpEnabled", p.rstpEnabled.map FieldVal.bool),
   ("stpGuard", p.stpGuard.map FieldVal.str),
   ("linkNegotiation", p.linkNegotiation.map FieldVal.str)]

/-- Second half of the `SwitchPort` field list, in declaration order. -/
def portFieldsB (p : SwitchPort) : List (String × Option FieldVal) :=
  [("portScheduleId", p.portScheduleId.map FieldVal.str),
   ("udld", p.udld.map FieldVal.str),
   ("accessPolicyType", p.accessPolicyType.map FieldVal.str),
   ("accessPolicyNumber", p.accessPolicyNumber.map FieldVal.int),
   ("macAllowList", p.macAllowList.map FieldVal.strList),
   ("stickyMacAllowList", p.stickyMacAllowList.map FieldVal.strList),
   ("stickyMacAllowListLimit", p.stickyMacAllowListLimit.map FieldVal.int),
   ("stormControlEnabled", p.stormControlEnabled.map FieldVal.bool),
   ("adaptivePolicyGroupId", p.adaptivePolicyGroupId.map FieldVal.str),
   ("peerSgtCapable", p.peerSgtCapable.map FieldVal.bool),
   ("flexibleStackingEnabled", p.flexibleStackingEnabled.map FieldVal.bool),
   ("daiTrusted", p.daiTrusted.map FieldVal.bool),
   ("profile", p.profile.map FieldVal.dict)]

/-- `dataclasses.asdict(port)` before filtering: every field of `SwitchPort`,
in declaration order (built in two halves only to keep elaboration cheap). -/
def portFields (p : SwitchPort) : List (String × Option FieldVal) :=
  portFieldsA p ++ portFieldsB p

/-- Device update payload: `asdict(device, dict_factory=lambda x: {k: v for
k, v in x if v is not None})` — every set field, unset fields omitted. -/
def deviceUpdatePayload (d : SwitchDevice) : List (String × FieldVal) :=
  (deviceFields d).filterMap
    (fun kv =>
      match kv.2 with
      | none => none
      | some v => some (kv.1, v))

/-- Port update payload: `asdict(port, dict_factory=lambda x: {k: v for k, v
in x if v is not None and k != 'portId'})` — set fields only, and never
`portId`. -/
def portUpdatePayload (p : SwitchPort) : List (String × FieldVal) :=
  (portFields p).filterMap
    (fun kv =>
      match kv.2 with
      | none => none
      | some v => if kv.1 = "portId" then none else some (kv.1, v))

/-- First value bound to key `k` in an API response mapping (a Python dict has
unique keys, so first = only). -/
def lookupVal (m : List (String × FieldVal)) (k : String) : Option FieldVal :=
  (m.find? (fun kv => kv.1 == k)).map (fun kv => kv.2)

/-- Extracts a string value; a value of any other shape is treated as unset.
(On the Meraki API contract every present field has its declared shape.) -/
def asStr : Option FieldVal → Option String
  | some (FieldVal.str s) => some s
  | _ => none

/-- Extracts an integer value. -/
def asInt : Option FieldVal → Option Int
  | some (FieldVal.int i) => some i
  | _ => none

/-- Extracts a boolean value. -/
def asBool : Option FieldVal → Option Bool
  | some (FieldVal.bool b) => some b
  | _ => none

/-- Extracts a float value. -/
def asFloat : Option FieldVal → Option Rat
  | some (FieldVal.float q) => some q
  | _ => none

/-- Extracts a string-list value. -/
def asStrList : Option FieldVal → Option (List String)
  | some (FieldVal.strList l) => some l
  | _ => none

/-- Extracts a dict value. -/
def asDict : Option FieldVal → Option (List (String × String))
  | some (FieldVal.dict d) => some d
  | _ => none

/-- `SwitchDevice(**{k: v for k, v in response.items() if k in
inspect.signature(SwitchDevice).parameters})`: keep recognized keys, leave
the rest of the mapping silently discarded, absent fields stay unset. -/
def switchDeviceOfMapping (m : List (String × FieldVal)) : SwitchDevice :=
  { name := asStr (lookupVal m "name"),
    model := asStr (lookupVal m "model"),
    mac := asStr (lookupVal m "mac"),
    tags := asStrList (lookupVal m "tags"),
    lat := asFloat (lookupVal m "lat"),
    lng := asFloat (lookupVal m "lng"),
    address := asStr (lookupVal m "address"),
    notes := asStr (lookupVal m "notes"),
    floorPlanId := asStr (lookupVal m "floorPlanId") }

/-- `SwitchPort(**{k: v for k, v in port.items() if k in
inspect.signature(SwitchPort).parameters})`. -/
def switchPortOfMapping (m : List (String × FieldVal)) : SwitchPort :=
  { portId := asStr (lookupVal m "portId"),
    name := asStr (lookupVal m "name"),
    tags := asStrList (lookupVal m "tags"),
    enabled := asBool (lookupVal m "enabled"),
    poeEnabled := asBool (lookupVal m "poeEnabled"),
    type := asStr (lookupVal m "type"),
    vlan := asInt (lookupVal m "vlan"),
    voiceVlan := asInt (lookupVal m "voiceVlan"),
    allowedVlans := asStr (lookupVal m "allowedVlans"),
    isolationEnabled := asBool (lookupVal m "isolationEnabled"),
    rstpEnabled := asBool (lookupVal m "rstpEnabled"),
    stpGuard := asStr (lookupVal m "stpGuard"),
    linkNegotiation := asStr (lookupVal m "linkNegotiation"),
    portScheduleId := asStr (lookupVal m "portScheduleId"),
    udld := asStr (lookupVal m "udld"),
    accessPolicyType := asStr (lookupVal m "accessPolicyType"),
    accessPolicyNumber := asInt (lookupVal m "accessPolicyNumber"),
    macAllowList := asStrList (lookupVal m "macAllowList"),
    stickyMacAllowList := asStrList (lookupVal m "stickyMacAllowList"),
    stickyMacAllowListLimit := asInt (lookupVal m "stickyMacAllowListLimit"),
    stormControlEnabled := asBool (lookupVal m "stormControlEnabled"),
    adaptivePolicyGroupId := asStr (lookupVal m "adaptivePolicyGroupId"),
    peerSgtCapable := asBool (lookupVal m "peerSgtCapable"),
    flexibleStackingEnabled := asBool (lookupVal m "flexibleStackingEnabled"),
    daiTrusted := asBool (lookupVal m "daiTrusted"),
    profile := asDict (lookupVal m "profile") }

/-- The per-port update calls the `update_switch_ports` loop issues, in list
order: `updateDeviceSwitchPort(target_serial, port.portId, **payload)` for
each adjusted port.  On a reconciliation error no call is made. -/
def updateSwitchPortsCalls (sourcePorts : List SwitchPort)
    (targetPortCount : Nat) :
    Except PortsError (List (Option String × List (String × FieldVal))) :=
  (updateSwitchPorts sourcePorts targetPortCount).map
    (fun ps => ps.map (fun p => (p.portId, portUpdatePayload p)))

/-- Python f-string interpolation of an `Optional[str]`: `None` prints as the
four-character string `"None"`. -/
def pyFormatOptStr : Option String → String
  | none => "None"
  | some s => s

/-- Payload built by `update_switch_config`: the source device with
`name = f'{source_device.name}-clone'`, serialized with unset fields
omitted. -/
def updateSwitchConfigPayload (sourceDevice : SwitchDevice) :
    List (String × FieldVal) :=
  deviceUpdatePayload
    { sourceDevice with
        name := some (pyFormatOptStr sourceDevice.name ++ "-clone") }

/-- Outcome of the precondition checks at the top of `migrate`
(lines 344–353). -/
inductive GateResult where
  | targetInUse : GateResult
  | targetNotUndeployed : GateResult
  | tagsTypeError : GateResult
  | confirmPrompt : GateResult
  | proceed : GateResult
deriving DecidableEq, Repr

/-- The precondition gate of `migrate`:
`if target.name == target.mac: raise ... elif 'undeployed' not in target.tags:
raise ... elif not yes: click.confirm(...) else: echo(...)`.
When `target.tags` is `None` the membership test raises `TypeError`,
embedded as `tagsTypeError`. -/
def preconditionGate (target : SwitchDevice) (yes : Bool) : GateResult :=
  if target.name = target.mac then .targetInUse
  else
    match target.tags with
    | none => .tagsTypeError
    | some tags =>
      if "undeployed" ∉ tags then .targetNotUndeployed
      else if !yes then .confirmPrompt
      else .proceed

/-- Mutating remote calls the orchestrator can issue:
`cloneOrganizationSwitchDevices`, `updateDeviceSwitchPort` (with the port id
passed positionally) and `updateDevice`. -/
inductive MigAction where
  | cloneCall : MigAction
  | portUpdate : Option String → MigAction
  | deviceUpdate : MigAction
deriving DecidableEq, Repr

/-- Ways a `migrate` run terminates before completing all steps.
`cloneError` embeds the `click.ClickException` that `clone_config` raises on
any failure of the bulk clone call; `migrate` only catches `meraki.APIError`,
so this exception terminates the command. -/
inductive MigAbort where
  | targetInUse : MigAbort
  | targetNotUndeployed : MigAbort
  | tagsTypeError : MigAbort
  | userDeclined : MigAbort
  | emptyPortsRetrieval : MigAbort
  | cloneError : MigAbort
  | portsError : PortsError → MigAbort
deriving DecidableEq, Repr

/-- Snapshot of the collaborator's responses for one `migrate` run: the
fetched device and port records, whether the bulk clone call fails, and the
operator's answer to the confirmation prompt.  Every remote port/device
update is taken to succeed (the claims under scrutiny concern which calls are
issued, not mid-loop apply failures). -/
structure MigrateEnv where
  sourceDevice : SwitchDevice
  targetDevice : SwitchDevice
  sourcePorts : List SwitchPort
  targetPorts : List SwitchPort
  cloneFails : Bool
  confirmAnswer : Bool
deriving Repr

/-- Steps of `migrate` after the precondition gate has been passed: fetch
ports (`get_switch_ports` raises on an empty response), optionally
`clone_config`, then `update_switch_ports` and `update_switch_config`. -/
def migrateAfterGate (env : MigrateEnv) (orgId : Option String) :
    List MigAction × Option MigAbort :=
  if env.sourcePorts.length = 0 ∨ env.targetPorts.length = 0 then
    ([], some .emptyPortsRetrieval)
  else
    let cloneActs : List MigAction :=
      if env.sourceDevice.model = env.targetDevice.model ∧ orgId.isSome then
        [.cloneCall]
      else []
    if (env.sourceDevice.model = env.targetDevice.model ∧ orgId.isSome) ∧
        env.cloneFails then
      (cloneActs, some .cloneError)
    else
      match updateSwitchPorts env.sourcePorts env.targetPorts.length with
      | .error e => (cloneActs, some (.portsError e))
      | .ok ps =>
        (cloneActs ++ ps.map (fun p => .portUpdate p.portId) ++
          [.deviceUpdate], none)

/-- The `migrate` command as a trace of mutating collaborator calls plus the
way the run aborted (`none` = ran to completion): gate first, then the
post-gate steps. -/
def migrateTrace (env : MigrateEnv) (orgId : Option String) (yes : Bool) :
    List MigAction × Option MigAbort :=
  match preconditionGate env.targetDevice yes with
  | .targetInUse => ([], some .targetInUse)
  | .targetNotUndeployed => ([], some .targetNotUndeployed)
  | .tagsTypeError => ([], some .tagsTypeError)
  | .confirmPrompt =>
    if env.confirmAnswer then migrateAfterGate env orgId
    else ([], some .userDeclined)
  | .proceed => migrateAfterGate env orgId

/-- A port carrying only a `portId`, as used in concrete instances. -/
def mkPort (i : String) : SwitchPort := { portId := some i }

/-- A target device whose name equals its mac address (never configured). -/
def devInUse : SwitchDevice :=
  { name := some "e0:cb:ab:cd:ef:01", mac := some "e0:cb:ab:cd:ef:01",
    tags := some ["undeployed"] }

/-- A named target device without the required tag. -/
def devNoTag : SwitchDevice :=
  { name := some "switch-a", mac := some "e0:cb:ab:cd:ef:01",
    tags := some ["deployed"] }

/-- A named target device carrying the required tag. -/
def devReady : SwitchDevice :=
  { name := some "switch-a", mac := some "e0:cb:ab:cd:ef:01",
    tags := some ["undeployed"] }

/-- A named target device whose tags field is unset. -/
def devNoneTags : SwitchDevice :=
  { name := some "switch-b", mac := some "aa:bb:cc:dd:ee:ff" }

/-- A device with every field unset. -/
def devBlank : SwitchDevice := { }

/-- C5: the class-selection function returns the largest value in `{8,24,48}`
at or below `n` when one exists, otherwise the smallest value `8`; on `8`,
`24` and `48` it is the identity. -/
theorem c5_nearest_class (n : Nat) (hn : 0 < n) :
    ((∃ c ∈ rj45Ports, c ≤ n) →
      nearestClass n ∈ rj45Ports ∧ nearestClass n ≤ n ∧
        ∀ c ∈ rj45Ports, c ≤ n → c ≤ nearestClass n) ∧
    ((∀ c ∈ rj45Ports, n < c) → nearestClass n = 8) ∧
    (n ∈ rj45Ports → nearestClass n = n) := by
  rw [nearestClass_char]
  simp only [rj45Ports, List.mem_cons, List.mem_singleton, List.not_mem_nil,
    or_false]
  refine ⟨?_, ?_, ?_⟩
  · rintro ⟨c, hc, hcn⟩
    refine ⟨?_, ?_, ?_⟩
    · split_ifs <;> omega
    · split_ifs <;> omega
    · intro c2 hc2 hc2n
      split_ifs <;> omega
  · intro hall
    have h8 := hall 8 (by simp)
    split_ifs <;> omega
  · intro hmem
    split_ifs <;> omega

/-- Witness for C5 at `n = 24`. -/
theorem c5_nearest_class_witness :
    0 < 24 ∧
    (((∃ c ∈ rj45Ports, c ≤ 24) →
        nearestClass 24 ∈ rj45Ports ∧ nearestClass 24 ≤ 24 ∧
          ∀ c ∈ rj45Ports, c ≤ 24 → c ≤ nearestClass 24) ∧
      ((∀ c ∈ rj45Ports, 24 < c) → nearestClass 24 = 8) ∧
      (24 ∈ rj45Ports → nearestClass 24 = 24)) :=
  ⟨by decide, c5_nearest_class 24 (by decide)⟩

/-- C7: reconciling an empty source port list fails with the empty-source
error for every target port count, and no per-port update call is issued. -/
theorem c7_empty_source (targetPortCount : Nat) :
    updateSwitchPorts [] targetPortCount = .error .emptySource ∧
    updateSwitchPortsCalls [] targetPortCount = .error .emptySource :=
  ⟨rfl, rfl⟩

/-- C2: gate checks run name-check, then tag-check, then confirm, and
short-circuit: `name = mac` yields in-use regardless of tags; otherwise a
missing `"undeployed"` tag yields not-undeployed; a target passing both
reaches the prompt when the override flag is off and proceeds directly when
it is on; the prompt is only ever reached by a target passing both checks. -/
theorem c2_gate_order (d : SwitchDevice) (yes : Bool) :
    (d.name = d.mac → preconditionGate d yes = .targetInUse) ∧
    (∀ ts, d.name ≠ d.mac → d.tags = some ts → "undeployed" ∉ ts →
      preconditionGate d yes = .targetNotUndeployed) ∧
    (∀ ts, d.name ≠ d.mac → d.tags = some ts → "undeployed" ∈ ts →
      yes = false → preconditionGate d yes = .confirmPrompt) ∧
    (∀ ts, d.name ≠ d.mac → d.tags = some ts → "undeployed" ∈ ts →
      yes = true → preconditionGate d yes = .proceed) ∧
    (preconditionGate d yes = .confirmPrompt →
      d.name ≠ d.mac ∧ ∃ ts, d.tags = some ts ∧ "undeployed" ∈ ts ∧
        yes = false) := by
  refine ⟨?_, ?_, ?_, ?_, ?_⟩
  · intro h
    simp [preconditionGate, h]
  · intro ts hne hts htag
    simp [preconditionGate, hne, hts, htag]
  · intro ts hne hts htag hyes
    simp [preconditionGate, hne, hts, htag, hyes]
  · intro ts hne hts htag hyes
    simp [preconditionGate, hne, hts, htag, hyes]
  · intro h
    by_cases h1 : d.name = d.mac
    · simp [preconditionGate, h1] at h
    · cases hts : d.tags with
      | none => simp [preconditionGate, h1, hts] at h
      | some ts =>
        by_cases h2 : "undeployed" ∈ ts
        · cases yes with
          | true => simp [preconditionGate, h1, hts, h2] at h
          | false => exact ⟨h1, ts, rfl, h2, rfl⟩
        · simp [preconditionGate, h1, hts, h2] at h

/-- Witness for C2 on concrete devices exercising all four outcomes and the
prompt inversion. -/
theorem c2_gate_order_witness :
    preconditionGate devInUse true = .targetInUse ∧
    preconditionGate devNoTag true = .targetNotUndeployed ∧
    preconditionGate devReady false = .confirmPrompt ∧
    preconditionGate devReady true = .proceed ∧
    (devReady.name ≠ devReady.mac ∧
      ∃ ts, devReady.tags = some ts ∧ "undeployed" ∈ ts ∧ false = false) :=
  ⟨(c2_gate_order devInUse true).1 rfl,
   (c2_gate_order devNoTag true).2.1 ["deployed"] (by decide) rfl (by decide),
   (c2_gate_order devReady false).2.2.1 ["undeployed"] (by decide) rfl
     (by decide) rfl,
   (c2_gate_order devReady true).2.2.2.1 ["undeployed"] (by decide) rfl
     (by decide) rfl,
   (c2_gate_order devReady false).2.2.2.2 (by decide)⟩

/-- C9: on a target whose tags field is unset and whose name differs from its
mac, the tag membership test raises `TypeError` (embedded as
`tagsTypeError`), not `TargetNotUndeployed`: the gate is not total over
devices with unset tags. -/
theorem c9_gate_none_tags (d : SwitchDevice) (yes : Bool)
    (hname : d.name ≠ d.mac) (htags : d.tags = none) :
    preconditionGate d yes = .tagsTypeError ∧
    preconditionGate d yes ≠ .targetNotUndeployed := by
  simp [preconditionGate, hname, htags]

/-- Witness for C9 on a concrete device with unset tags. -/
theorem c9_gate_none_tags_witness :
    devNoneTags.name ≠ devNoneTags.mac ∧ devNoneTags.tags = none ∧
    (preconditionGate devNoneTags false = .tagsTypeError ∧
      preconditionGate devNoneTags false ≠ .targetNotUndeployed) :=
  ⟨by decide, rfl, c9_gate_none_tags devNoneTags false (by decide) rfl⟩

/-- C10: an unset source name is interpolated by the f-string as the literal
`"None"`, so the device update payload carries
`name = "None-clone"` rather than omitting the name field. -/
theorem c10_none_name_clone (d : SwitchDevice) (h : d.name = none) :
    ("name", FieldVal.str "None-clone") ∈ updateSwitchConfigPayload d := by
  simp [updateSwitchConfigPayload, pyFormatOptStr, h, deviceUpdatePayload,
    deviceFields]

/-- Witness for C10 on the all-unset device. -/
theorem c10_none_name_clone_witness :
    devBlank.name = none ∧
    ("name", FieldVal.str "None-clone") ∈ updateSwitchConfigPayload devBlank :=
  ⟨rfl, c10_none_name_clone devBlank rfl⟩

/-- Source lists of topology class 24 are those of length in `[24, 48)`. -/
theorem nearestClass_eq_24 {n : Nat} (h : nearestClass n = 24) :
    24 ≤ n ∧ n < 48 := by
  rw [nearestClass_char] at h
  split_ifs at h <;> omega

/-- Port counts of topology class 48 are those of length at least 48. -/
theorem nearestClass_eq_48 {n : Nat} (h : nearestClass n = 48) : 48 ≤ n := by
  rw [nearestClass_char] at h
  split_ifs at h <;> omega

/-- When every uplink has a numeric `portId`, renumbering succeeds and sends
each port to a by-value copy whose `portId` is shifted by `delta`. -/
theorem renumberUplinks_total (delta : Int) (ps : List SwitchPort)
    (h : ∀ p ∈ ps, (p.portId.bind pyInt).isSome) :
    ∃ ups, renumberUplinks delta ps = some ups ∧
      List.Forall₂
        (fun p q => ∃ k : Int, p.portId.bind pyInt = some k ∧
          q = { p with portId := some (toString (k + delta)) }) ps ups := by
  induction ps with
  | nil => exact ⟨[], rfl, List.Forall₂.nil⟩
  | cons p ps ih =>
    have hp := h p (List.mem_cons_self p ps)
    obtain ⟨k, hk⟩ := Option.isSome_iff_exists.mp hp
    obtain ⟨ups, hu, hf⟩ := ih (fun q hq => h q (List.mem_cons_of_mem p hq))
    refine ⟨{ p with portId := some (toString (k + delta)) } :: ups, ?_, ?_⟩
    · simp [renumberUplinks, hk, hu]
    · exact List.Forall₂.cons ⟨k, hk, rfl⟩ hf

/-- Taking a nonzero prefix does not change the head. -/
theorem headD_take (l : List SwitchPort) (n : Nat) (hn : n ≠ 0) :
    (l.take n).headD default = l.headD default := by
  cases l <;> cases n <;> simp_all [List.take]

/-- C3: reconciling a class-24 source against a class-48 target yields the
original 24 base ports unchanged, then 24 synthesized ports numbered 25..48,
each a by-value copy of the first base port in every field except `portId`,
then the uplink ports with their numeric `portId` increased by 24. -/
theorem c3_reconcile_24_to_48 (sourcePorts : List SwitchPort)
    (targetPortCount : Nat)
    (hs : nearestClass sourcePorts.length = 24)
    (ht : nearestClass targetPortCount = 48)
    (hup : ∀ p ∈ sourcePorts.drop 24, (p.portId.bind pyInt).isSome) :
    ∃ ups,
      updateSwitchPorts sourcePorts targetPortCount =
        .ok ((sourcePorts.take 24 ++
          (List.range' 24 24).map
            (fun n => { sourcePorts.headD default with
                          portId := some (toString (n + 1)) })) ++ ups) ∧
      (sourcePorts.take 24).length = 24 ∧
      ((List.range' 24 24).map
          (fun n => { sourcePorts.headD default with
                        portId := some (toString (n + 1)) })).length = 24 ∧
      List.Forall₂
        (fun p q => ∃ k : Int, p.portId.bind pyInt = some k ∧
          q = { p with portId := some (toString (k + 24)) })
        (sourcePorts.drop 24) ups := by
  obtain ⟨h24, h48⟩ := nearestClass_eq_24 hs
  obtain ⟨ups, hu, hf⟩ := renumberUplinks_total 24 _ hup
  have hne : ¬ sourcePorts.length = 0 := by omega
  refine ⟨ups, ?_, by simp [List.length_take]; omega, by simp, hf⟩
  simp only [updateSwitchPorts, hs, ht, if_neg hne]
  rw [if_pos (by norm_num), if_pos (by norm_num)]
  rw [hu]
  rw [extendTo48, headD_take _ _ (by norm_num)]

/-- A concrete class-24 source port list: 24 base ports and two uplinks. -/
def srcPorts24 : List SwitchPort :=
  (List.range 24).map (fun i => mkPort (toString (i + 1))) ++
    [mkPort "25", mkPort "26"]

/-- Witness for C3 on a 26-port source (class 24) and a 52-port target
(class 48). -/
theorem c3_reconcile_24_to_48_witness :
    nearestClass srcPorts24.length = 24 ∧
    nearestClass 52 = 48 ∧
    (∀ p ∈ srcPorts24.drop 24, (p.portId.bind pyInt).isSome) ∧
    (∃ ups,
      updateSwitchPorts srcPorts24 52 =
        .ok ((srcPorts24.take 24 ++
          (List.range' 24 24).map
            (fun n => { srcPorts24.headD default with
                          portId := some (toString (n + 1)) })) ++ ups) ∧
      (srcPorts24.take 24).length = 24 ∧
      ((List.range' 24 24).map
          (fun n => { srcPorts24.headD default with
                        portId := some (toString (n + 1)) })).length = 24 ∧
      List.Forall₂
        (fun p q => ∃ k : Int, p.portId.bind pyInt = some k ∧
          q = { p with portId := some (toString (k + 24)) })
        (srcPorts24.drop 24) ups) :=
  ⟨by decide, by decide, by decide,
   c3_reconcile_24_to_48 srcPorts24 52 (by decide) (by decide) (by decide)⟩

/-- C4: reconciling a class-48 source against a class-24 target yields
exactly the original first 24 base ports unchanged followed by the uplink
ports with their numeric `portId` decreased by 24; source ports 25..48 are
dropped. -/
theorem c4_reconcile_48_to_24 (sourcePorts : List SwitchPort)
    (targetPortCount : Nat)
    (hs : nearestClass sourcePorts.length = 48)
    (ht : nearestClass targetPortCount = 24)
    (hup : ∀ p ∈ sourcePorts.drop 48, (p.portId.bind pyInt).isSome) :
    ∃ ups,
      updateSwitchPorts sourcePorts targetPortCount =
        .ok (sourcePorts.take 24 ++ ups) ∧
      (sourcePorts.take 24).length = 24 ∧
      List.Forall₂
        (fun p q => ∃ k : Int, p.portId.bind pyInt = some k ∧
          q = { p with portId := some (toString (k - 24)) })
        (sourcePorts.drop 48) ups := by
  have h48 := nearestClass_eq_48 hs
  obtain ⟨ups, hu, hf⟩ := renumberUplinks_total (-24) _ hup
  have hne : ¬ sourcePorts.length = 0 := by omega
  refine ⟨ups, ?_, by simp [List.length_take]; omega, ?_⟩
  · simp only [updateSwitchPorts, hs, ht, if_neg hne]
    rw [if_pos (by norm_num), if_neg (by norm_num), if_pos (by norm_num)]
    rw [hu]
    rw [List.take_take]
    norm_num
  · simpa [Int.sub_eq_add_neg] using hf

/-- A concrete class-48 source port list: 48 base ports and two uplinks. -/
def srcPorts48 : List SwitchPort :=
  (List.range 48).map (fun i => mkPort (toString (i + 1))) ++
    [mkPort "49", mkPort "50"]

/-- Witness for C4 on a 50-port source (class 48) and a 28-port target
(class 24). -/
theorem c4_reconcile_48_to_24_witness :
    nearestClass srcPorts48.length = 48 ∧
    nearestClass 28 = 24 ∧
    (∀ p ∈ srcPorts48.drop 48, (p.portId.bind pyInt).isSome) ∧
    (∃ ups,
      updateSwitchPorts srcPorts48 28 =
        .ok (srcPorts48.take 24 ++ ups) ∧
      (srcPorts48.take 24).length = 24 ∧
      List.Forall₂
        (fun p q => ∃ k : Int, p.portId.bind pyInt = some k ∧
          q = { p with portId := some (toString (k - 24)) })
        (srcPorts48.drop 48) ups) :=
  ⟨by decide, by decide, by decide,
   c4_reconcile_48_to_24 srcPorts48 28 (by decide) (by decide) (by decide)⟩

/-- C6: for every non-empty source list whose class pair is neither equal nor
24→48 nor 48→24, the reconciler yields the incompatible-topology error and no
per-port update call is issued. -/
theorem c6_incompatible (sourcePorts : List SwitchPort) (targetPortCount : Nat)
    (hne : sourcePorts ≠ [])
    (hneq : nearestClass sourcePorts.length ≠ nearestClass targetPortCount)
    (h1 : ¬(nearestClass sourcePorts.length = 24 ∧
      nearestClass targetPortCount = 48))
    (h2 : ¬(nearestClass sourcePorts.length = 48 ∧
      nearestClass targetPortCount = 24)) :
    updateSwitchPorts sourcePorts targetPortCount =
      .error (.incompatible (nearestClass sourcePorts.length)
        (nearestClass targetPortCount)) ∧
    updateSwitchPortsCalls sourcePorts targetPortCount =
      .error (.incompatible (nearestClass sourcePorts.length)
        (nearestClass targetPortCount)) := by
  have hne0 : ¬ sourcePorts.length = 0 := by
    simpa [List.length_eq_zero] using hne
  have hmain : updateSwitchPorts sourcePorts targetPortCount =
      .error (.incompatible (nearestClass sourcePorts.length)
        (nearestClass targetPortCount)) := by
    simp only [updateSwitchPorts, if_neg hne0]
    rw [if_pos hneq, if_neg h1, if_neg h2]
  exact ⟨hmain, by simp [updateSwitchPortsCalls, hmain, Except.map]⟩

/-- Witness for C6 on a one-port source (class 8) and a 24-port target
(class 24). -/
theorem c6_incompatible_witness :
    [mkPort "1"] ≠ ([] : List SwitchPort) ∧
    nearestClass [mkPort "1"].length ≠ nearestClass 24 ∧
    ¬(nearestClass [mkPort "1"].length = 24 ∧ nearestClass 24 = 48) ∧
    ¬(nearestClass [mkPort "1"].length = 48 ∧ nearestClass 24 = 24) ∧
    (updateSwitchPorts [mkPort "1"] 24 =
      .error (.incompatible (nearestClass [mkPort "1"].length)
        (nearestClass 24)) ∧
    updateSwitchPortsCalls [mkPort "1"] 24 =
      .error (.incompatible (nearestClass [mkPort "1"].length)
        (nearestClass 24))) :=
  ⟨by decide, by decide, by decide, by decide,
   c6_incompatible [mkPort "1"] 24 (by decide) (by decide) (by decide)
     (by decide)⟩

/-- A pair kept in the device payload was a set field of the record. -/
theorem mem_deviceUpdatePayload (d : SwitchDevice) (k : String) (v : FieldVal)
    (h : (k, v) ∈ deviceUpdatePayload d) : (k, some v) ∈ deviceFields d := by
  rw [deviceUpdatePayload, List.mem_filterMap] at h
  obtain ⟨⟨k0, ov⟩, hmem, hf⟩ := h
  cases ov with
  | none => simp at hf
  | some w =>
    simp at hf
    obtain ⟨rfl, rfl⟩ := hf
    exact hmem

/-- A pair kept in the port payload was a set field of the record, and its
key is never `portId`. -/
theorem mem_portUpdatePayload (p : SwitchPort) (k : String) (v : FieldVal)
    (h : (k, v) ∈ portUpdatePayload p) :
    (k, some v) ∈ portFields p ∧ k ≠ "portId" := by
  rw [portUpdatePayload, List.mem_filterMap] at h
  obtain ⟨⟨k0, ov⟩, hmem, hf⟩ := h
  cases ov with
  | none => simp at hf
  | some w =>
    by_cases hk : k0 = "portId"
    · simp [hk] at hf
    · simp [hk] at hf
      obtain ⟨rfl, rfl⟩ := hf
      exact ⟨hmem, hk⟩

/-- A key absent from the source mapping is unset in the constructed device
record. -/
theorem device_unset_not_mem (m : List (String × FieldVal)) (k : String)
    (v : FieldVal) (hk : lookupVal m k = none) :
    (k, some v) ∉ deviceFields (switchDeviceOfMapping m) := by
  intro hmem
  simp only [deviceFields, switchDeviceOfMapping, List.mem_cons,
    List.not_mem_nil, or_false, Prod.mk.injEq] at hmem
  rcases hmem with ⟨rfl, h⟩ | ⟨rfl, h⟩ | ⟨rfl, h⟩ | ⟨rfl, h⟩ | ⟨rfl, h⟩ |
    ⟨rfl, h⟩ | ⟨rfl, h⟩ | ⟨rfl, h⟩ | ⟨rfl, h⟩ <;>
    rw [hk] at h <;> simp [asStr, asStrList, asFloat] at h

/-- A key absent from the source mapping is unset in the constructed port
record. -/
theorem port_unset_not_mem (m : List (String × FieldVal)) (k : String)
    (v : FieldVal) (hk : lookupVal m k = none) :
    (k, some v) ∉ portFields (switchPortOfMapping m) := by
  intro hmem
  simp only [portFields, portFieldsA, portFieldsB, switchPortOfMapping,
    List.mem_append, List.mem_cons, List.not_mem_nil, or_false,
    Prod.mk.injEq] at hmem
  rcases hmem with
    (⟨rfl, h⟩ | ⟨rfl, h⟩ | ⟨rfl, h⟩ | ⟨rfl, h⟩ | ⟨rfl, h⟩ | ⟨rfl, h⟩ |
      ⟨rfl, h⟩ | ⟨rfl, h⟩ | ⟨rfl, h⟩ | ⟨rfl, h⟩ | ⟨rfl, h⟩ | ⟨rfl, h⟩ |
      ⟨rfl, h⟩) |
    (⟨rfl, h⟩ | ⟨rfl, h⟩ | ⟨rfl, h⟩ | ⟨rfl, h⟩ | ⟨rfl, h⟩ | ⟨rfl, h⟩ |
      ⟨rfl, h⟩ | ⟨rfl, h⟩ | ⟨rfl, h⟩ | ⟨rfl, h⟩ | ⟨rfl, h⟩ | ⟨rfl, h⟩ |
      ⟨rfl, h⟩) <;>
    rw [hk] at h <;>
    simp [asStr, asInt, asBool, asStrList, asDict] at h

/-- C8: a record constructed from a field mapping omits from its update
payload every field whose key was absent from the mapping, and a port update
payload never carries the `portId` key. -/
theorem c8_serialization (m : List (String × FieldVal)) (k : String)
    (hk : lookupVal m k = none) :
    (∀ v, (k, v) ∉ deviceUpdatePayload (switchDeviceOfMapping m)) ∧
    (∀ v, (k, v) ∉ portUpdatePayload (switchPortOfMapping m)) ∧
    (∀ (p : SwitchPort) (v : FieldVal), ("portId", v) ∉ portUpdatePayload p) := by
  refine ⟨?_, ?_, ?_⟩
  · intro v hv
    exact device_unset_not_mem m k v hk (mem_deviceUpdatePayload _ _ _ hv)
  · intro v hv
    exact port_unset_not_mem m k v hk (mem_portUpdatePayload _ _ _ hv).1
  · intro p v hv
    exact (mem_portUpdatePayload _ _ _ hv).2 rfl

/-- A mapping setting only the name field. -/
def mapNameOnly : List (String × FieldVal) := [("name", FieldVal.str "alpha")]

/-- Witness for C8: a mapping without the `vlan` key yields payloads without
`vlan`, and `portId` never appears. -/
theorem c8_serialization_witness :
    lookupVal mapNameOnly "vlan" = none ∧
    ((∀ v, ("vlan", v) ∉ deviceUpdatePayload (switchDeviceOfMapping mapNameOnly)) ∧
     (∀ v, ("vlan", v) ∉ portUpdatePayload (switchPortOfMapping mapNameOnly)) ∧
     (∀ (p : SwitchPort) (v : FieldVal), ("portId", v) ∉ portUpdatePayload p)) :=
  ⟨by decide, c8_serialization mapNameOnly "vlan" (by decide)⟩

/-- A run in which source and target share a model, an organization id is
supplied, the target passes the gate, both switches have ports, and the bulk
clone call fails. -/
def envCloneFail : MigrateEnv :=
  { sourceDevice :=
      { name := some "src-switch", model := some "MS210-24",
        mac := some "aa:aa:aa:aa:aa:aa" },
    targetDevice :=
      { name := some "tgt-switch", model := some "MS210-24",
        mac := some "bb:bb:bb:bb:bb:bb", tags := some ["undeployed"] },
    sourcePorts := [mkPort "1"],
    targetPorts := [mkPort "1"],
    cloneFails := true,
    confirmAnswer := true }

/-- C1 counterexample: with matching models, an organization id and a failing
bulk clone, the migration run issues only the clone call and terminates with
the clone error — the per-port applies and the device-level apply do not
execute, contradicting the claim that a clone failure does not abort the
remaining steps.  (`clone_config` wraps any failure in a
`click.ClickException`, which `migrate`'s handler for `meraki.APIError` does
not catch.) -/
theorem c1_counterexample :
    migrateTrace envCloneFail (some "123456") true =
      ([MigAction.cloneCall], some MigAbort.cloneError) := by
  decide

/-- C1 (amended): when source and target models match and an organization id
was supplied, the orchestrator invokes the bulk clone call; a failure of that
call aborts the run — no per-port apply and no device-level apply is
issued. -/
theorem c1_clone_abort (env : MigrateEnv) (orgId : Option String)
    (hmodel : env.sourceDevice.model = env.targetDevice.model)
    (horg : orgId.isSome = true)
    (hgate : preconditionGate env.targetDevice true = .proceed)
    (hsp : env.sourcePorts.length ≠ 0) (htp : env.targetPorts.length ≠ 0)
    (hfail : env.cloneFails = true) :
    migrateTrace env orgId true =
      ([MigAction.cloneCall], some MigAbort.cloneError) := by
  have hc : env.sourceDevice.model = env.targetDevice.model ∧ orgId.isSome :=
    ⟨hmodel, horg⟩
  simp only [migrateTrace, hgate]
  simp only [migrateAfterGate, if_neg (by omega : ¬(env.sourcePorts.length = 0
    ∨ env.targetPorts.length = 0))]
  rw [if_pos hc, if_pos ⟨hc, hfail⟩]

/-- Witness for C1 (amended) on the concrete failing-clone run. -/
theorem c1_clone_abort_witness :
    envCloneFail.sourceDevice.model = envCloneFail.targetDevice.model ∧
    (some "123456" : Option String).isSome = true ∧
    preconditionGate envCloneFail.targetDevice true = .proceed ∧
    envCloneFail.sourcePorts.length ≠ 0 ∧
    envCloneFail.targetPorts.length ≠ 0 ∧
    envCloneFail.cloneFails = true ∧
    migrateTrace envCloneFail (some "123456") true =
      ([MigAction.cloneCall], some MigAbort.cloneError) :=
  ⟨rfl, rfl, by decide, by decide, by decide, rfl,
   c1_clone_abort envCloneFail (some "123456") rfl rfl (by decide)
     (by decide) (by decide) rfl⟩
